import Mathlib

/-!
Verification development for the snagging-list report writer.

The definitions below are a shallow embedding of the repository's core:
the Report → Room → Snag → Photo entity model, the immutable update
handlers of `ReportEditor` (`handleAddSnag`, `handleUpdateSnag`,
`handleDeleteSnag`, `handlePhotoUpload`), the aggregate counts, the
report-collection status change of `App` (`handleStatusChange`), and the
paginated PDF content generator (`handleExportPDF`).  Identifier and
timestamp generation (`Date.now()`, random suffixes) is modelled by
passing the generated values as explicit parameters.
-/

namespace Snagging

/-- `SnagPriority` from the source: 'critical' | 'high' | 'medium' | 'low'. -/
inductive SnagPriority
| critical
| high
| medium
| low
deriving DecidableEq

/-- `SnagStatus` from the source: 'open' | 'in-progress' | 'resolved'. -/
inductive SnagStatus
| «open»
| inProgress
| resolved
deriving DecidableEq

/-- `ReportStatus` from the source: 'working' | 'complete' | 'archived'. -/
inductive ReportStatus
| working
| complete
| archived
deriving DecidableEq

/-- `Photo` interface: id, url, optional name. -/
structure Photo where
  id : String
  url : String
  name : Option String
deriving DecidableEq

/-- `SnagItem` interface. -/
structure SnagItem where
  id : String
  location : String
  description : String
  priority : SnagPriority
  status : SnagStatus
  photos : List Photo
  createdAt : Nat
deriving DecidableEq

/-- `Room` interface. -/
structure Room where
  id : String
  name : String
  snags : List SnagItem
deriving DecidableEq

/-- `SnaggingReport` interface. -/
structure SnaggingReport where
  id : String
  propertyAddress : String
  developerName : String
  clientName : String
  plotNumber : String
  inspectionDate : String
  status : ReportStatus
  rooms : List Room
  coverPhoto : Option Photo
  createdAt : Nat
  lastModified : Nat
deriving DecidableEq

/-- A `Partial<SnagItem>`: each field optionally present.  The JS spread
`{ ...snag, ...updates }` keeps the old field when the patch omits it. -/
structure SnagPatch where
  id : Option String := none
  location : Option String := none
  description : Option String := none
  priority : Option SnagPriority := none
  status : Option SnagStatus := none
  photos : Option (List Photo) := none
  createdAt : Option Nat := none
deriving DecidableEq

/-- JS object spread `{ ...snag, ...updates }`. -/
def applyPatch (s : SnagItem) (p : SnagPatch) : SnagItem where
  id := p.id.getD s.id
  location := p.location.getD s.location
  description := p.description.getD s.description
  priority := p.priority.getD s.priority
  status := p.status.getD s.status
  photos := p.photos.getD s.photos
  createdAt := p.createdAt.getD s.createdAt

/-- The fresh `SnagItem` built by `handleAddSnag`; the generated id
(`snag-${Date.now()}`) and `Date.now()` are passed in explicitly. -/
def mkNewSnag (newId : String) (now : Nat) : SnagItem where
  id := newId
  location := ""
  description := ""
  priority := SnagPriority.medium
  status := SnagStatus.«open»
  photos := []
  createdAt := now

/-- `handleAddSnag` (ReportEditor): append the new empty snag to every
room whose id matches `roomId`, leaving other rooms untouched. -/
def handleAddSnag (r : SnaggingReport) (roomId newId : String) (now : Nat) : SnaggingReport :=
  { r with rooms := r.rooms.map (fun room =>
      if room.id = roomId then { room with snags := room.snags ++ [mkNewSnag newId now] }
      else room) }

/-- `handleUpdateSnag` (ReportEditor): patch the snag with id `snagId`
inside the room with id `roomId`. -/
def handleUpdateSnag (r : SnaggingReport) (roomId snagId : String) (updates : SnagPatch) :
    SnaggingReport :=
  { r with rooms := r.rooms.map (fun room =>
      if room.id = roomId then
        { room with snags := room.snags.map (fun snag =>
            if snag.id = snagId then applyPatch snag updates else snag) }
      else room) }

/-- `handleDeleteSnag` (ReportEditor): `snags.filter(s => s.id !== snagId)`. -/
def handleDeleteSnag (r : SnaggingReport) (roomId snagId : String) : SnaggingReport :=
  { r with rooms := r.rooms.map (fun room =>
      if room.id = roomId then
        { room with snags := room.snags.filter (fun s => s.id ≠ snagId) }
      else room) }

/-- The photo lookup inside `handlePhotoUpload`:
`report.rooms.find(r => r.id === roomId)?.snags.find(s => s.id === snagId)?.photos || []`. -/
def findPhotos (r : SnaggingReport) (roomId snagId : String) : List Photo :=
  match r.rooms.find? (fun room => room.id = roomId) with
  | none => []
  | some room =>
    match room.snags.find? (fun s => s.id = snagId) with
    | none => []
    | some s => s.photos

/-- One `FileReader.onloadend` completion in `handlePhotoUpload`: the new
photo list is computed from the *snapshot* `r0` captured when the batch
was initiated (the closed-over `currentReport`), and the resulting patch
is applied to the current state `s` through `handleUpdateSnag`. -/
def photoUploadCompletion (r0 : SnaggingReport) (roomId snagId : String) (p : Photo)
    (s : SnaggingReport) : SnaggingReport :=
  handleUpdateSnag s roomId snagId { photos := some (findPhotos r0 roomId snagId ++ [p]) }

/-- `handlePhotoUpload` (ReportEditor): every file of the batch gets its
own completion; all of them close over the same snapshot `r0`. -/
def handlePhotoUpload (r0 : SnaggingReport) (roomId snagId : String) (ps : List Photo) :
    SnaggingReport :=
  ps.foldl (fun s p => photoUploadCompletion r0 roomId snagId p s) r0

/-- `handleStatusChange` (App): `reports.map(r => r.id === id ? { ...r, status } : r)`. -/
def handleStatusChange (reports : List SnaggingReport) (id : String) (status : ReportStatus) :
    List SnaggingReport :=
  reports.map (fun r => if r.id = id then { r with status := status } else r)

/-- The 20 default room names (DEFAULT_ROOMS), in catalog order. -/
def defaultRoomNames : List String :=
  ["Front Elevation", "Rear Elevation", "Driveway/Parking", "Garden/Landscaping",
   "Hallway/Entrance", "Living Room", "Kitchen", "Dining Room", "Utility Room",
   "WC/Cloakroom", "Landing", "Master Bedroom", "En-Suite", "Bedroom 2", "Bedroom 3",
   "Bedroom 4", "Family Bathroom", "Garage", "Loft Space", "General/Miscellaneous"]

/-- `DEFAULT_ROOMS.map((room, idx) => ({ ...room, id: `room-idx-now` }))`. -/
def defaultRooms (now : Nat) : List Room :=
  defaultRoomNames.enum.map (fun p =>
    { id := "room-" ++ toString p.1 ++ "-" ++ toString now, name := p.2, snags := [] })

/-- `handleNewReport` (App): a fresh report; `Date.now()` and the
inspection-date string are explicit parameters. -/
def handleNewReport (now : Nat) (dateStr : String) : SnaggingReport where
  id := "report-" ++ toString now
  propertyAddress := ""
  developerName := ""
  clientName := ""
  plotNumber := ""
  inspectionDate := dateStr
  status := ReportStatus.working
  rooms := defaultRooms now
  coverPhoto := none
  createdAt := now
  lastModified := now

/-- `totalSnags` (ReportEditor line 263 and App's `dashboardReports`):
`rooms.reduce((sum, room) => sum + room.snags.length, 0)`. -/
def totalSnags (r : SnaggingReport) : Nat :=
  r.rooms.foldl (fun sum room => sum + room.snags.length) 0

/-- `openSnags`: `sum + room.snags.filter(s => s.status === 'open').length`. -/
def openSnags (r : SnaggingReport) : Nat :=
  r.rooms.foldl (fun sum room =>
    sum + (room.snags.filter (fun s => s.status = SnagStatus.«open»)).length) 0

/-- `criticalSnags`: `sum + room.snags.filter(s => s.priority === 'critical').length`. -/
def criticalSnags (r : SnaggingReport) : Nat :=
  r.rooms.foldl (fun sum room =>
    sum + (room.snags.filter (fun s => s.priority = SnagPriority.critical)).length) 0

/-- The spec's `countSnags(report) -> {total, open, critical}`, bundling the
three aggregates computed by the source. -/
def countSnags (r : SnaggingReport) : Nat × Nat × Nat :=
  (totalSnags r, openSnags r, criticalSnags r)

/-- An RGB fill color, as passed to `pdf.setFillColor`. -/
structure RGB where
  r : Nat
  g : Nat
  b : Nat
deriving DecidableEq

/-- `priorityColors` (handleExportPDF): the fixed palette. -/
def priorityColor : SnagPriority → RGB
  | SnagPriority.critical => ⟨220, 38, 38⟩
  | SnagPriority.high => ⟨245, 158, 11⟩
  | SnagPriority.medium => ⟨59, 130, 246⟩
  | SnagPriority.low => ⟨34, 197, 94⟩

/-- The TS string literal behind a `SnagPriority` value. -/
def priorityStr : SnagPriority → String
  | SnagPriority.critical => "critical"
  | SnagPriority.high => "high"
  | SnagPriority.medium => "medium"
  | SnagPriority.low => "low"

/-- The TS string literal behind a `SnagStatus` value. -/
def statusStr : SnagStatus → String
  | SnagStatus.«open» => "open"
  | SnagStatus.inProgress => "in-progress"
  | SnagStatus.resolved => "resolved"

/-- JS `String.prototype.replace` with a one-character string pattern:
replaces only the first occurrence. -/
def replaceFirstChar : List Char → Char → Char → List Char
  | [], _, _ => []
  | c :: cs, t, u => if c = t then u :: cs else c :: replaceFirstChar cs t u

/-- `s.replace('-', ' ')` on the status literals. -/
def jsReplaceDashSpace (s : String) : String :=
  String.mk (replaceFirstChar s.data '-' ' ')

/-- `s.toUpperCase()` (the strings involved are plain ASCII). -/
def jsToUpperCase (s : String) : String :=
  String.mk (s.data.map Char.toUpper)

/-- The snag summary line emitted by `handleExportPDF`:
`${snag.location || 'No location'}: ${snag.description || 'No description'}`
(JS `||` treats the empty string as falsy). -/
def summaryLine (s : SnagItem) : String :=
  (if s.location = "" then "No location" else s.location) ++ ": " ++
  (if s.description = "" then "No description" else s.description)

/-- The metadata line emitted by `handleExportPDF`:
`Priority: ${priority.toUpperCase()} | Status: ${status.replace('-',' ').toUpperCase()}`. -/
def secondaryLine (s : SnagItem) : String :=
  "Priority: " ++ jsToUpperCase (priorityStr s.priority) ++ " | Status: " ++
  jsToUpperCase (jsReplaceDashSpace (statusStr s.status))

/-- A4 page height in mm as used by `pdf.internal.pageSize.getHeight()`.
jsPDF reports 297.0000833…; since the cursor `y` only ever takes integer
values here, the comparisons `y > 297.00008… - 40` and `y > 297 - 40`
(and likewise for 30) agree, so the height is embedded as the integer 297. -/
def pageHeight : Nat := 297

/-- `const margin = 15`. -/
def margin : Nat := 15

/-- One piece of room/snag content placed on a page by `handleExportPDF`,
together with the cursor position `y` it was placed at. -/
inductive PdfItem
| roomHeading (y : Nat) (name : String)
| snagLine (y : Nat) (color : RGB) (summary : String) (secondary : String)
deriving DecidableEq

/-- State of the layout loop: finished pages, the page being filled, and
the vertical cursor `y`. -/
structure GenState where
  pages : List (List PdfItem)
  current : List PdfItem
  y : Nat
deriving DecidableEq

/-- `pdf.addPage(); y = margin;`. -/
def pdfAddPage (st : GenState) : GenState where
  pages := st.pages ++ [st.current]
  current := []
  y := margin

/-- `if (y > pageHeight - 30) { pdf.addPage(); y = margin; }` — the page
break guarding each snag entry. -/
def snagBreak (st : GenState) : GenState :=
  if pageHeight - 30 < st.y then pdfAddPage st else st

/-- `if (y > pageHeight - 40) { pdf.addPage(); y = margin; }` — the page
break guarding each room heading. -/
def roomBreak (st : GenState) : GenState :=
  if pageHeight - 40 < st.y then pdfAddPage st else st

/-- Place one item at the current cursor and advance `y` by `dy`. -/
def pushItem (st : GenState) (it : PdfItem) (dy : Nat) : GenState where
  pages := st.pages
  current := st.current ++ [it]
  y := st.y + dy

/-- Advance the cursor without emitting anything. -/
def addY (st : GenState) (dy : Nat) : GenState where
  pages := st.pages
  current := st.current
  y := st.y + dy

/-- The body of the inner snag loop of `handleExportPDF`: break the page
when `y > pageHeight - 30`, then emit the colored marker plus the two
text lines at `y` and `y + 6`, and advance `y` by 6 + 10. -/
def emitSnag (st : GenState) (s : SnagItem) : GenState :=
  pushItem (snagBreak st)
    (PdfItem.snagLine (snagBreak st).y (priorityColor s.priority) (summaryLine s)
      (secondaryLine s)) (6 + 10)

/-- The body of the room loop of `handleExportPDF`: skip rooms with no
snags (`continue`), break the page when `y > pageHeight - 40`, emit the
heading, advance `y` by 8, lay out the snags, then add the inter-room
gap of 5. -/
def emitRoom (st : GenState) (room : Room) : GenState :=
  if room.snags.length = 0 then st
  else
    addY (room.snags.foldl emitSnag
      (pushItem (roomBreak st) (PdfItem.roomHeading (roomBreak st).y room.name) 8)) 5

/-- The cursor position reached after the fixed title/summary block of
page 1 (`y` starts at 80 and advances 10, 8, 8, 8, 8, 15, 10, 8, 8, 15). -/
def titleBlockEnd : Nat := 80 + 10 + 8 + 8 + 8 + 8 + 15 + 10 + 8 + 8 + 15

/-- The room/snag content of the generated PDF, page by page: the room
loop of `handleExportPDF` run from the end of the title block. -/
def generateDocument (r : SnaggingReport) : List (List PdfItem) :=
  let st := r.rooms.foldl emitRoom { pages := [], current := [], y := titleBlockEnd }
  st.pages ++ [st.current]

/-- Projection: the summary text of a snag entry. -/
def itemSummary : PdfItem → Option String
  | PdfItem.snagLine _ _ s _ => some s
  | PdfItem.roomHeading _ _ => none

/-- Projection: the metadata text of a snag entry. -/
def itemSecondary : PdfItem → Option String
  | PdfItem.snagLine _ _ _ t => some t
  | PdfItem.roomHeading _ _ => none

/-- All content items of a generation state, in emission order. -/
def docItems (st : GenState) : List PdfItem :=
  st.pages.flatten ++ st.current

/-- A report freshly created at time 0 (inspection date is free text). -/
def exReport0 : SnaggingReport := handleNewReport 0 "2024-01-01"

/-- The end-to-end example: a snag added to the "Kitchen" room (catalog
index 6, so its generated id is `room-6-0`) and then patched with
location "Under sink", description "Leak", priority critical, status open. -/
def exReport : SnaggingReport :=
  handleUpdateSnag (handleAddSnag exReport0 "room-6-0" "snag-1" 1) "room-6-0" "snag-1"
    { location := some "Under sink", description := some "Leak",
      priority := some SnagPriority.critical, status := some SnagStatus.«open» }

/-- A numbered plain snag, used for concrete pagination examples. -/
def exSnagN (n : Nat) : SnagItem :=
  { id := "s" ++ toString n, location := "L" ++ toString n, description := "D" ++ toString n,
    priority := SnagPriority.medium, status := SnagStatus.«open», photos := [], createdAt := n }

/-- A single room holding seven snags — one more than fits below the
title block of page 1. -/
def exRoom7 : Room := { id := "r1", name := "Kitchen", snags := (List.range 7).map exSnagN }

/-- A report whose only room holds seven snags. -/
def exReport7 : SnaggingReport := { exReport0 with rooms := [exRoom7] }

/-- First photo of the two-file upload batch. -/
def exPhotoA : Photo := { id := "p1", url := "u1", name := some "a.jpg" }

/-- Second photo of the two-file upload batch. -/
def exPhotoB : Photo := { id := "p2", url := "u2", name := some "b.jpg" }

/-- A snag with no photos, target of the upload batch. -/
def exSnagNoPhotos : SnagItem :=
  { id := "s1", location := "", description := "", priority := SnagPriority.medium,
    status := SnagStatus.«open», photos := [], createdAt := 0 }

/-- A report holding one room with one photo-less snag. -/
def exPhotoReport : SnaggingReport :=
  { exReport0 with rooms := [⟨"r1", "Kitchen", [exSnagNoPhotos]⟩] }

/-- Placeholder room for positional (`getD`) statements. -/
def dummyRoom : Room := ⟨"", "", []⟩

/-- Placeholder report for positional (`getD`) statements. -/
def dummyReport : SnaggingReport :=
  ⟨"", "", "", "", "", "", ReportStatus.working, [], none, 0, 0⟩

/-- A single structural edit of the Update Engine, as fed to
`applyEdits`; id and timestamp generation are explicit data. -/
inductive EditOp
| add (roomId newId : String) (now : Nat)
| del (roomId snagId : String)
| upd (roomId snagId : String) (patch : SnagPatch)

/-- Apply one edit through the corresponding source handler. -/
def applyEdit (r : SnaggingReport) : EditOp → SnaggingReport
  | EditOp.add roomId newId now => handleAddSnag r roomId newId now
  | EditOp.del roomId snagId => handleDeleteSnag r roomId snagId
  | EditOp.upd roomId snagId patch => handleUpdateSnag r roomId snagId patch

/-- Apply a sequence of edits left to right. -/
def applyEdits (r : SnaggingReport) (ops : List EditOp) : SnaggingReport :=
  ops.foldl applyEdit r

/-- All snags of the report, flattened in Room-then-insertion order. -/
def allSnags (r : SnaggingReport) : List SnagItem :=
  (r.rooms.map Room.snags).flatten

/-- Direct recount over the tree, following the spec: `total` = count of
all Snags. -/
def recountTotal (r : SnaggingReport) : Nat := (allSnags r).length

/-- Direct recount: `open` = count where `status=open`. -/
def recountOpen (r : SnaggingReport) : Nat :=
  ((allSnags r).filter (fun s => s.status = SnagStatus.«open»)).length

/-- Direct recount: `critical` = count where `priority=critical`. -/
def recountCritical (r : SnaggingReport) : Nat :=
  ((allSnags r).filter (fun s => s.priority = SnagPriority.critical)).length

/-- Error kind of the spec's Update Engine operations. -/
inductive UpdateError
| notFound
deriving DecidableEq

/-- Refinement comparison for `addSnag`, following the spec's words:
append a new empty Snag (fresh id, `createdAt=now`) to the named Room's
sequence, at the end; fail with `NotFound` if the Room id is absent. -/
def addSnagSpec (r : SnaggingReport) (roomId newId : String) (now : Nat) :
    Except UpdateError SnaggingReport :=
  if r.rooms.any (fun room => room.id = roomId) then
    Except.ok { r with rooms := r.rooms.map (fun room =>
      if room.id = roomId then { room with snags := room.snags ++ [mkNewSnag newId now] }
      else room) }
  else
    Except.error UpdateError.notFound

/-- Mapping with a function that agrees with another on every member. -/
theorem map_congr_mem {α β : Type} {f g : α → β} :
    ∀ {l : List α}, (∀ a ∈ l, f a = g a) → l.map f = l.map g := by
  intro l h
  induction l with
  | nil => rfl
  | cons a t ih =>
    simp only [List.map_cons]
    rw [h a (by simp), ih (fun x hx => h x (by simp [hx]))]

/-- Mapping with a function that fixes every member is the identity. -/
theorem map_id_of_mem {α : Type} {f : α → α} :
    ∀ {l : List α}, (∀ a ∈ l, f a = a) → l.map f = l := by
  intro l h
  induction l with
  | nil => rfl
  | cons a t ih =>
    simp only [List.map_cons]
    rw [h a (by simp), ih (fun x hx => h x (by simp [hx]))]

/-- Filtering a list that satisfies the predicate everywhere is the identity. -/
theorem filter_eq_self_of {α : Type} {p : α → Bool} :
    ∀ {l : List α}, (∀ a ∈ l, p a = true) → l.filter p = l := by
  intro l h
  induction l with
  | nil => rfl
  | cons a t ih =>
    rw [List.filter_cons, if_pos (h a (by simp)), ih (fun x hx => h x (by simp [hx]))]

/-- Filtering twice with the same predicate filters once. -/
theorem filter_idem_self {α : Type} (p : α → Bool) :
    ∀ l : List α, (l.filter p).filter p = l.filter p := by
  intro l
  induction l with
  | nil => rfl
  | cons a t ih =>
    by_cases h : p a = true
    · rw [List.filter_cons, if_pos h, List.filter_cons, if_pos h, ih]
    · rw [List.filter_cons, if_neg h, ih]

/-- `getD` through a `map`, for in-range indices. -/
theorem getD_map {α β : Type} (f : α → β) (d : β) (dd : α) :
    ∀ (l : List α) (i : Nat), i < l.length → (l.map f).getD i d = f (l.getD i dd) := by
  intro l
  induction l with
  | nil => intro i hi; simp at hi
  | cons a t ih =>
    intro i hi
    cases i with
    | zero => rfl
    | succ n =>
      simp only [List.map_cons, List.getD_cons_succ]
      exact ih n (by simpa using hi)

/-- C9: `deleteSnag(roomId, snagId)` applied twice produces the same tree
as applying it once, and deleting an absent `snagId` is a no-op rather
than an error: when no snag of the addressed room carries the id, the
report is returned unchanged. -/
theorem deleteSnag_idempotent (r : SnaggingReport) (roomId snagId : String) :
    handleDeleteSnag (handleDeleteSnag r roomId snagId) roomId snagId =
      handleDeleteSnag r roomId snagId
    ∧ ((∀ room ∈ r.rooms, room.id = roomId → ∀ s ∈ room.snags, s.id ≠ snagId) →
        handleDeleteSnag r roomId snagId = r) := by
  constructor
  · unfold handleDeleteSnag
    congr 1
    rw [List.map_map]
    apply map_congr_mem
    intro room _
    dsimp only [Function.comp_apply]
    by_cases hid : room.id = roomId
    · simp only [if_pos hid, filter_idem_self]
    · simp only [if_neg hid]
  · intro h
    unfold handleDeleteSnag
    have hmap : r.rooms.map (fun room =>
        if room.id = roomId then
          { room with snags := room.snags.filter (fun s => s.id ≠ snagId) }
        else room) = r.rooms := by
      apply map_id_of_mem
      intro room hm
      dsimp only
      by_cases hid : room.id = roomId
      · have hfix : room.snags.filter (fun s => s.id ≠ snagId) = room.snags :=
          filter_eq_self_of (fun s hs => decide_eq_true (h room hm hid s hs))
        rw [if_pos hid, hfix]
      · rw [if_neg hid]
    rw [hmap]

/-- C9 witness: concrete double delete of an absent id on the example report. -/
theorem deleteSnag_idempotent_witness :
    (handleDeleteSnag (handleDeleteSnag exReport "room-6-0" "nope") "room-6-0" "nope" =
      handleDeleteSnag exReport "room-6-0" "nope")
    ∧ handleDeleteSnag exReport "room-6-0" "nope" = exReport :=
  ⟨(deleteSnag_idempotent exReport "room-6-0" "nope").1,
   (deleteSnag_idempotent exReport "room-6-0" "nope").2 (by decide)⟩

/-- C6: `updateSnag` with a `snagId` that no snag of the addressed room
carries returns a report structurally identical to the input, whatever
the patch. -/
theorem updateSnag_unknown_id_noop (r : SnaggingReport) (roomId snagId : String)
    (patch : SnagPatch) (_hroom : ∃ room ∈ r.rooms, room.id = roomId)
    (habs : ∀ room ∈ r.rooms, room.id = roomId → ∀ s ∈ room.snags, s.id ≠ snagId) :
    handleUpdateSnag r roomId snagId patch = r := by
  unfold handleUpdateSnag
  have hmap : r.rooms.map (fun room =>
      if room.id = roomId then
        { room with snags := room.snags.map (fun snag =>
            if snag.id = snagId then applyPatch snag patch else snag) }
      else room) = r.rooms := by
    apply map_id_of_mem
    intro room hm
    dsimp only
    by_cases hid : room.id = roomId
    · have hfix : room.snags.map (fun snag =>
          if snag.id = snagId then applyPatch snag patch else snag) = room.snags :=
        map_id_of_mem (fun s hs => if_neg (habs room hm hid s hs))
      rw [if_pos hid, hfix]
    · rw [if_neg hid]
  rw [hmap]

/-- C6 witness: updating an unknown snag id inside the populated Kitchen
room of the example report leaves it untouched. -/
theorem updateSnag_unknown_id_noop_witness :
    handleUpdateSnag exReport "room-6-0" "missing" { location := some "x" } = exReport :=
  updateSnag_unknown_id_noop exReport "room-6-0" "missing" { location := some "x" }
    (by decide) (by decide)

/-- C8 (amended): `addSnag` followed by `deleteSnag` of the id just added
restores the original room sequences, provided the generated id does not
already occur among the addressed room's snags (the source derives snag
ids from the clock and does not otherwise guarantee freshness). -/
theorem addSnag_deleteSnag_roundtrip (r : SnaggingReport) (roomId newId : String) (now : Nat)
    (hfresh : ∀ room ∈ r.rooms, room.id = roomId → ∀ s ∈ room.snags, s.id ≠ newId) :
    handleDeleteSnag (handleAddSnag r roomId newId now) roomId newId = r := by
  unfold handleAddSnag handleDeleteSnag
  rw [List.map_map]
  have hmap : r.rooms.map ((fun room =>
      if room.id = roomId then
        { room with snags := room.snags.filter (fun s => s.id ≠ newId) }
      else room) ∘ (fun room =>
      if room.id = roomId then { room with snags := room.snags ++ [mkNewSnag newId now] }
      else room)) = r.rooms := by
    apply map_id_of_mem
    intro room hm
    dsimp only [Function.comp_apply]
    by_cases hid : room.id = roomId
    · have hkeep : room.snags.filter (fun s => s.id ≠ newId) = room.snags :=
        filter_eq_self_of (fun s hs => decide_eq_true (hfresh room hm hid s hs))
      have hdrop : [mkNewSnag newId now].filter (fun s => s.id ≠ newId) = [] := by
        simp [mkNewSnag]
      simp only [if_pos hid]
      rw [List.filter_append, hkeep, hdrop, List.append_nil]
    · simp only [if_neg hid]
  rw [hmap]

/-- C8 counterexample: if the room already holds a snag whose id equals
the generated one, the delete removes both and the round trip fails. -/
def exDupReport : SnaggingReport :=
  { exReport0 with rooms := [⟨"r1", "Kitchen", [{ exSnagNoPhotos with id := "snag-5" }]⟩] }

/-- C8 counterexample theorem: the round-trip law fails when the clock
collides with an existing snag id. -/
theorem addSnag_deleteSnag_roundtrip_counterexample :
    handleDeleteSnag (handleAddSnag exDupReport "r1" "snag-5" 5) "r1" "snag-5" ≠ exDupReport := by
  decide

/-- C8 witness: a fresh id round-trips on the example report. -/
theorem addSnag_deleteSnag_roundtrip_witness :
    handleDeleteSnag (handleAddSnag exReport "room-6-0" "snag-99" 9) "room-6-0" "snag-99" =
      exReport :=
  addSnag_deleteSnag_roundtrip exReport "room-6-0" "snag-99" 9 (by decide)

/-- Sums accumulated by `reduce` equal the sum of the mapped list. -/
theorem foldl_add_eq_sum {α : Type} (g : α → Nat) :
    ∀ (l : List α) (n : Nat), l.foldl (fun sum x => sum + g x) n = n + (l.map g).sum := by
  intro l
  induction l with
  | nil => intro n; simp
  | cons a t ih =>
    intro n
    simp only [List.foldl_cons, List.map_cons, List.sum_cons]
    rw [ih (n + g a), Nat.add_assoc]

/-- Length of a filtered flattening, summed blockwise. -/
theorem length_filter_flatten {α : Type} (p : α → Bool) :
    ∀ l : List (List α),
      (l.flatten.filter p).length = (l.map (fun x => (x.filter p).length)).sum := by
  intro l
  induction l with
  | nil => rfl
  | cons a t ih =>
    simp only [List.flatten_cons, List.filter_append, List.length_append, List.map_cons,
      List.sum_cons, ih]

/-- The three aggregates of the source equal a direct recount on any report. -/
theorem countSnags_is_recount (r : SnaggingReport) :
    countSnags r = (recountTotal r, recountOpen r, recountCritical r) := by
  unfold countSnags totalSnags openSnags criticalSnags recountTotal recountOpen
    recountCritical allSnags
  rw [foldl_add_eq_sum, foldl_add_eq_sum, foldl_add_eq_sum]
  simp only [List.length_flatten, length_filter_flatten, List.map_map, Nat.zero_add,
    Prod.mk.injEq]
  exact ⟨rfl, rfl, rfl⟩

/-- C4: after any sequence of `addSnag`/`deleteSnag`/`updateSnag` edits,
the aggregate counts (total, open, critical) computed by the source's
reduce expressions equal a direct recount over the resulting tree. -/
theorem countSnags_recount_after_edits (r : SnaggingReport) (ops : List EditOp) :
    countSnags (applyEdits r ops) =
      (recountTotal (applyEdits r ops), recountOpen (applyEdits r ops),
        recountCritical (applyEdits r ops)) :=
  countSnags_is_recount (applyEdits r ops)

/-- C5 (amended): `addSnag` appends a new empty snag (fresh id,
`createdAt = now`, empty location/description, priority medium, status
open, no photos) at the end of the addressed room's sequence, leaves all
other rooms untouched, and — when no room carries the id — returns the
report unchanged: the absent-id case is a silent no-op, not a `NotFound`
failure. -/
theorem addSnag_appends_and_noop (r : SnaggingReport) (roomId newId : String) (now : Nat) :
    mkNewSnag newId now =
      ⟨newId, "", "", SnagPriority.medium, SnagStatus.«open», [], now⟩
    ∧ (handleAddSnag r roomId newId now).rooms.length = r.rooms.length
    ∧ (∀ i, i < r.rooms.length →
        (handleAddSnag r roomId newId now).rooms.getD i dummyRoom =
          (if (r.rooms.getD i dummyRoom).id = roomId then
            { r.rooms.getD i dummyRoom with
              snags := (r.rooms.getD i dummyRoom).snags ++ [mkNewSnag newId now] }
          else r.rooms.getD i dummyRoom))
    ∧ ((∀ room ∈ r.rooms, room.id ≠ roomId) → handleAddSnag r roomId newId now = r) := by
  refine ⟨rfl, by simp [handleAddSnag], ?_, ?_⟩
  · intro i hi
    unfold handleAddSnag
    exact getD_map _ dummyRoom dummyRoom r.rooms i hi
  · intro h
    unfold handleAddSnag
    have hmap : r.rooms.map (fun room =>
        if room.id = roomId then { room with snags := room.snags ++ [mkNewSnag newId now] }
        else room) = r.rooms :=
      map_id_of_mem (fun room hm => if_neg (h room hm))
    rw [hmap]

/-- C5 witness: on a fresh report and an absent room id, position 0 is
untouched and the whole report is returned unchanged. -/
theorem addSnag_appends_and_noop_witness :
    ((handleAddSnag exReport0 "nope" "snag-9" 9).rooms.getD 0 dummyRoom =
      (if (exReport0.rooms.getD 0 dummyRoom).id = "nope" then
        { exReport0.rooms.getD 0 dummyRoom with
          snags := (exReport0.rooms.getD 0 dummyRoom).snags ++ [mkNewSnag "snag-9" 9] }
      else exReport0.rooms.getD 0 dummyRoom))
    ∧ handleAddSnag exReport0 "nope" "snag-9" 9 = exReport0 :=
  ⟨(addSnag_appends_and_noop exReport0 "nope" "snag-9" 9).2.2.1 0 (by decide),
   (addSnag_appends_and_noop exReport0 "nope" "snag-9" 9).2.2.2 (by decide)⟩

/-- C5 counterexample: where the spec's `addSnag` fails with `NotFound`
(absent room id), the source handler does not fail — it returns the
report unchanged. -/
theorem addSnag_notFound_counterexample :
    addSnagSpec exReport0 "nope" "snag-9" 9 = Except.error UpdateError.notFound
    ∧ handleAddSnag exReport0 "nope" "snag-9" 9 = exReport0 := by
  constructor
  · rfl
  · decide

/-- C10: `setStatus` on a report collection touches only the `status`
field of the reports whose id matches: their `lastModified`, every other
scalar field and the whole Room/Snag/Photo subtree are unchanged, and
every other report in the collection is returned unchanged. -/
theorem setStatus_frame (reports : List SnaggingReport) (id : String) (status : ReportStatus)
    (i : Nat) (hi : i < reports.length) :
    (handleStatusChange reports id status).length = reports.length
    ∧ ((handleStatusChange reports id status).getD i dummyReport).id =
        (reports.getD i dummyReport).id
    ∧ ((handleStatusChange reports id status).getD i dummyReport).propertyAddress =
        (reports.getD i dummyReport).propertyAddress
    ∧ ((handleStatusChange reports id status).getD i dummyReport).developerName =
        (reports.getD i dummyReport).developerName
    ∧ ((handleStatusChange reports id status).getD i dummyReport).clientName =
        (reports.getD i dummyReport).clientName
    ∧ ((handleStatusChange reports id status).getD i dummyReport).plotNumber =
        (reports.getD i dummyReport).plotNumber
    ∧ ((handleStatusChange reports id status).getD i dummyReport).inspectionDate =
        (reports.getD i dummyReport).inspectionDate
    ∧ ((handleStatusChange reports id status).getD i dummyReport).rooms =
        (reports.getD i dummyReport).rooms
    ∧ ((handleStatusChange reports id status).getD i dummyReport).coverPhoto =
        (reports.getD i dummyReport).coverPhoto
    ∧ ((handleStatusChange reports id status).getD i dummyReport).createdAt =
        (reports.getD i dummyReport).createdAt
    ∧ ((handleStatusChange reports id status).getD i dummyReport).lastModified =
        (reports.getD i dummyReport).lastModified
    ∧ ((reports.getD i dummyReport).id = id →
        ((handleStatusChange reports id status).getD i dummyReport).status = status)
    ∧ ((reports.getD i dummyReport).id ≠ id →
        (handleStatusChange reports id status).getD i dummyReport =
          reports.getD i dummyReport) := by
  have hgd : (handleStatusChange reports id status).getD i dummyReport =
      (if (reports.getD i dummyReport).id = id then
        { reports.getD i dummyReport with status := status }
      else reports.getD i dummyReport) := by
    unfold handleStatusChange
    exact getD_map _ dummyReport dummyReport reports i hi
  refine ⟨by simp [handleStatusChange], ?_⟩
  rw [hgd]
  by_cases hid : (reports.getD i dummyReport).id = id
  · rw [if_pos hid]
    exact ⟨rfl, rfl, rfl, rfl, rfl, rfl, rfl, rfl, rfl, rfl,
      fun _ => rfl, fun hne => absurd hid hne⟩
  · rw [if_neg hid]
    exact ⟨rfl, rfl, rfl, rfl, rfl, rfl, rfl, rfl, rfl, rfl,
      fun hc => absurd hc hid, fun _ => rfl⟩

/-- C10 witness: a concrete status change on a two-report collection —
the matching report at position 0 keeps its `lastModified`. -/
theorem setStatus_frame_witness :
    ((handleStatusChange [exReport0, exReport] "report-0"
        ReportStatus.complete).getD 0 dummyReport).lastModified =
      (([exReport0, exReport] : List SnaggingReport).getD 0 dummyReport).lastModified :=
  (setStatus_frame [exReport0, exReport] "report-0" ReportStatus.complete 0
    (by decide)).2.2.2.2.2.2.2.2.2.2.1

/-- C7 (code bug evidence): uploading a batch of two photos to a snag
with no photos leaves only the *last* photo of the batch.  Each
completion rebuilds the photo array from the report snapshot captured at
batch initiation (`currentReport` in the closure), so the second
completion overwrites the first instead of appending after it; the
claimed final sequence `[exPhotoA, exPhotoB]` is not produced. -/
theorem photoUpload_batch_loses_first :
    findPhotos (handlePhotoUpload exPhotoReport "r1" "s1" [exPhotoA, exPhotoB]) "r1" "s1" =
      [exPhotoB]
    ∧ ([exPhotoB] : List Photo) ≠ [exPhotoA, exPhotoB] := by
  constructor
  · rfl
  · decide

/-- C3 (amended): on the end-to-end example report — fresh report, one
snag in the "Kitchen" room with location "Under sink", description
"Leak", priority critical, status open — `countSnags` yields
(1, 1, 1), and the generated document consists of a single page holding
the "Kitchen" heading followed by one entry with the red (220, 38, 38)
marker, summary line "Under sink: Leak" and secondary line
"Priority: CRITICAL | Status: OPEN" (upper-cased, labelled, hyphens in
the status replaced by spaces). -/
theorem exampleReport_end_to_end :
    countSnags exReport = (1, 1, 1)
    ∧ generateDocument exReport =
      [[PdfItem.roomHeading 178 "Kitchen",
        PdfItem.snagLine 186 ⟨220, 38, 38⟩ "Under sink: Leak"
          "Priority: CRITICAL | Status: OPEN"]] := by
  constructor
  · rfl
  · rfl

/-- C3 counterexample: no line of the generated document reads exactly
"CRITICAL | OPEN" — the source prefixes the values with "Priority: " and
"Status: " labels. -/
theorem exampleReport_no_bare_secondary :
    "CRITICAL | OPEN" ∉ (generateDocument exReport).flatten.filterMap itemSecondary := by
  decide

/-- Page breaks do not change the accumulated content. -/
theorem docItems_pdfAddPage (st : GenState) : docItems (pdfAddPage st) = docItems st := by
  simp [docItems, pdfAddPage]

/-- The snag-guard break preserves accumulated content. -/
theorem docItems_snagBreak (st : GenState) : docItems (snagBreak st) = docItems st := by
  by_cases h : pageHeight - 30 < st.y
  · rw [snagBreak, if_pos h, docItems_pdfAddPage]
  · rw [snagBreak, if_neg h]

/-- The room-guard break preserves accumulated content. -/
theorem docItems_roomBreak (st : GenState) : docItems (roomBreak st) = docItems st := by
  by_cases h : pageHeight - 40 < st.y
  · rw [roomBreak, if_pos h, docItems_pdfAddPage]
  · rw [roomBreak, if_neg h]

/-- Placing an item appends it to the accumulated content. -/
theorem docItems_pushItem (st : GenState) (it : PdfItem) (dy : Nat) :
    docItems (pushItem st it dy) = docItems st ++ [it] := by
  simp [docItems, pushItem]

/-- Emitting a snag appends exactly its entry to the accumulated content. -/
theorem docItems_emitSnag (st : GenState) (s : SnagItem) :
    docItems (emitSnag st s) = docItems st ++
      [PdfItem.snagLine (snagBreak st).y (priorityColor s.priority) (summaryLine s)
        (secondaryLine s)] := by
  rw [emitSnag, docItems_pushItem, docItems_snagBreak]

/-- The summary lines of a run of content items, in order. -/
def snagSummaries (l : List PdfItem) : List String := l.filterMap itemSummary

/-- `snagSummaries` distributes over append. -/
theorem snagSummaries_append (l₁ l₂ : List PdfItem) :
    snagSummaries (l₁ ++ l₂) = snagSummaries l₁ ++ snagSummaries l₂ := by
  simp [snagSummaries, List.filterMap_append]

/-- Folding the snag loop appends the snags' summary lines in order. -/
theorem summaries_foldl_emitSnag : ∀ (l : List SnagItem) (st : GenState),
    snagSummaries (docItems (l.foldl emitSnag st)) =
      snagSummaries (docItems st) ++ l.map summaryLine := by
  intro l
  induction l with
  | nil => intro st; simp
  | cons a t ih =>
    intro st
    rw [List.foldl_cons, ih, docItems_emitSnag, snagSummaries_append]
    simp [snagSummaries, itemSummary]

/-- An empty room leaves the layout state untouched. -/
theorem emitRoom_empty (st : GenState) (room : Room) (h : room.snags = []) :
    emitRoom st room = st := by
  rw [emitRoom, if_pos (by rw [h]; rfl)]

/-- Emitting a room appends exactly its snags' summary lines, in order. -/
theorem summaries_emitRoom (st : GenState) (room : Room) :
    snagSummaries (docItems (emitRoom st room)) =
      snagSummaries (docItems st) ++ room.snags.map summaryLine := by
  by_cases h0 : room.snags.length = 0
  · have he : room.snags = [] := List.length_eq_zero.mp h0
    rw [emitRoom_empty st room he, he]
    simp
  · rw [emitRoom, if_neg h0]
    have haddY : docItems (addY (room.snags.foldl emitSnag
        (pushItem (roomBreak st) (PdfItem.roomHeading (roomBreak st).y room.name) 8)) 5) =
        docItems (room.snags.foldl emitSnag
          (pushItem (roomBreak st) (PdfItem.roomHeading (roomBreak st).y room.name) 8)) := rfl
    rw [haddY, summaries_foldl_emitSnag, docItems_pushItem, snagSummaries_append,
      docItems_roomBreak]
    simp [snagSummaries, itemSummary]

/-- Folding the room loop appends all summary lines in room-then-insertion
order. -/
theorem summaries_foldl_emitRoom : ∀ (rooms : List Room) (st : GenState),
    snagSummaries (docItems (rooms.foldl emitRoom st)) =
      snagSummaries (docItems st) ++
        (rooms.map (fun room => room.snags.map summaryLine)).flatten := by
  intro rooms
  induction rooms with
  | nil => intro st; simp
  | cons a t ih =>
    intro st
    rw [List.foldl_cons, ih, summaries_emitRoom]
    simp [List.append_assoc]

/-- The flattened document is exactly the accumulated content of the
final layout state. -/
theorem generateDocument_flatten (r : SnaggingReport) :
    (generateDocument r).flatten =
      docItems (r.rooms.foldl emitRoom ⟨[], [], titleBlockEnd⟩) := by
  simp [generateDocument, docItems]

/-- The cursor after emitting a snag. -/
theorem emitSnag_y (st : GenState) (s : SnagItem) :
    (emitSnag st s).y = (snagBreak st).y + 16 := rfl

/-- The finished pages after emitting a snag. -/
theorem emitSnag_pages (st : GenState) (s : SnagItem) :
    (emitSnag st s).pages = (snagBreak st).pages := rfl

/-- A triggered snag-guard break finishes one more page. -/
theorem snagBreak_pages_len_of_gt (st : GenState) (h : pageHeight - 30 < st.y) :
    (snagBreak st).pages.length = st.pages.length + 1 := by
  rw [snagBreak, if_pos h]
  simp [pdfAddPage]

/-- The snag loop never discards finished pages. -/
theorem foldl_emitSnag_pages_mono : ∀ (l : List SnagItem) (st : GenState),
    st.pages.length ≤ (l.foldl emitSnag st).pages.length := by
  intro l
  induction l with
  | nil => intro st; exact Nat.le_refl _
  | cons a t ih =>
    intro st
    rw [List.foldl_cons]
    refine Nat.le_trans ?_ (ih (emitSnag st a))
    rw [emitSnag_pages]
    by_cases h : pageHeight - 30 < st.y
    · rw [snagBreak_pages_len_of_gt st h]
      exact Nat.le_succ _
    · rw [snagBreak, if_neg h]

/-- Either the snag loop never broke the page — in which case the cursor
advanced 16 per snag and the last guard check passed — or at least one
new page was finished. -/
theorem foldl_emitSnag_run : ∀ (l : List SnagItem) (st : GenState),
    ((l.foldl emitSnag st).pages.length = st.pages.length
      ∧ (l.foldl emitSnag st).y = st.y + 16 * l.length
      ∧ (l = [] ∨ st.y + 16 * (l.length - 1) ≤ pageHeight - 30))
    ∨ st.pages.length + 1 ≤ (l.foldl emitSnag st).pages.length := by
  intro l
  induction l with
  | nil =>
    intro st
    left
    exact ⟨rfl, by simp, Or.inl rfl⟩
  | cons a t ih =>
    intro st
    rw [List.foldl_cons]
    by_cases h : pageHeight - 30 < st.y
    · right
      have h1 : (emitSnag st a).pages.length = st.pages.length + 1 := by
        rw [emitSnag_pages, snagBreak_pages_len_of_gt st h]
      have h2 := foldl_emitSnag_pages_mono t (emitSnag st a)
      omega
    · have hle : st.y ≤ pageHeight - 30 := Nat.not_lt.mp h
      have hy1 : (emitSnag st a).y = st.y + 16 := by
        rw [emitSnag_y, snagBreak, if_neg h]
      have hp1 : (emitSnag st a).pages = st.pages := by
        rw [emitSnag_pages, snagBreak, if_neg h]
      rcases ih (emitSnag st a) with ⟨hp, hyf, hlast⟩ | hge
      · left
        refine ⟨by rw [hp, hp1], ?_, Or.inr ?_⟩
        · rw [hyf, hy1]
          simp [List.length_cons]
          omega
        · rcases hlast with rfl | hb
          · simpa using hle
          · rw [hy1] at hb
            simp only [List.length_cons]
            omega
      · right
        rw [hp1] at hge
        omega

/-- Starting at cursor 186 (the first snag position of page 1), seven or
more snags force at least one page break: the entries advance 16 per
snag, and the seventh check happens at cursor 282 > pageHeight - 30. -/
theorem foldl_emitSnag_breaks (l : List SnagItem) (st : GenState)
    (hy : st.y = 186) (hl : 7 ≤ l.length) :
    st.pages.length + 1 ≤ (l.foldl emitSnag st).pages.length := by
  rcases foldl_emitSnag_run l st with ⟨_, _, hlast⟩ | h
  · exfalso
    rcases hlast with rfl | hb
    · simp at hl
    · have hph : pageHeight = 297 := rfl
      rw [hy] at hb
      omega
  · exact h

/-- C1: the generated document renders rooms in catalog order with three
guarantees: (a) a room with zero snags contributes nothing — removing it
leaves the document unchanged, so no heading or line is emitted for it;
(b) the summary lines across the whole document are exactly the snags'
summary lines in room-then-insertion order, each appearing exactly once;
(c) a report with one room containing at least 7 snags (more than page 1
can hold below the title block) produces more than one page. -/
theorem generateDocument_room_order :
    (∀ (r : SnaggingReport) (pre post : List Room) (room : Room), room.snags = [] →
        generateDocument { r with rooms := pre ++ room :: post } =
          generateDocument { r with rooms := pre ++ post })
    ∧ (∀ r : SnaggingReport,
        (generateDocument r).flatten.filterMap itemSummary =
          ((r.rooms.map Room.snags).flatten).map summaryLine)
    ∧ (∀ (r : SnaggingReport) (room : Room), r.rooms = [room] → 7 ≤ room.snags.length →
        2 ≤ (generateDocument r).length) := by
  refine ⟨?_, ?_, ?_⟩
  · intro r pre post room he
    simp only [generateDocument]
    rw [List.foldl_append, List.foldl_append, List.foldl_cons, emitRoom_empty _ room he]
  · intro r
    rw [generateDocument_flatten]
    show snagSummaries _ = _
    rw [summaries_foldl_emitRoom]
    have hinit : snagSummaries (docItems ⟨[], [], titleBlockEnd⟩) = [] := rfl
    rw [hinit, List.nil_append, List.map_flatten, List.map_map]
    rfl
  · intro r room hr hlen
    have hne : ¬ room.snags.length = 0 := by omega
    have hrb : roomBreak ⟨[], [], titleBlockEnd⟩ = ⟨[], [], titleBlockEnd⟩ := by
      rw [roomBreak, if_neg (by decide)]
    simp only [generateDocument, hr, List.foldl_cons, List.foldl_nil]
    rw [emitRoom, if_neg hne, hrb]
    have hkey := foldl_emitSnag_breaks room.snags
      (pushItem ⟨[], [], titleBlockEnd⟩ (PdfItem.roomHeading titleBlockEnd room.name) 8)
      (by simp [pushItem, titleBlockEnd]) hlen
    have hp0 : (pushItem (⟨[], [], titleBlockEnd⟩ : GenState)
        (PdfItem.roomHeading titleBlockEnd room.name) 8).pages.length = 0 := rfl
    rw [hp0] at hkey
    simp only [addY, List.length_append, List.length_cons, List.length_nil]
    omega

/-- C1 witness: removing an empty room from the example report changes
nothing; the example document's summaries match the recount; the 7-snag
report spans at least two pages. -/
theorem generateDocument_room_order_witness :
    generateDocument { exReport with rooms := [] ++ ⟨"rx", "Empty", []⟩ :: exReport.rooms } =
      generateDocument { exReport with rooms := [] ++ exReport.rooms }
    ∧ (generateDocument exReport).flatten.filterMap itemSummary =
        ((exReport.rooms.map Room.snags).flatten).map summaryLine
    ∧ 2 ≤ (generateDocument exReport7).length :=
  ⟨generateDocument_room_order.1 exReport [] exReport.rooms ⟨"rx", "Empty", []⟩ rfl,
   generateDocument_room_order.2.1 exReport,
   generateDocument_room_order.2.2 exReport7 exRoom7 rfl (by decide)⟩

/-- An item placed on a page fits: a snag entry sits at a cursor that
passed the `pageHeight - 30` guard, so its marker and both text lines
(16 units of advance) lie within the page. -/
def itemFits : PdfItem → Prop
  | PdfItem.roomHeading _ _ => True
  | PdfItem.snagLine y _ _ _ => y ≤ pageHeight - 30 ∧ y + 16 ≤ pageHeight

/-- Emitting one snag keeps every placed item fitting. -/
theorem itemFits_emitSnag (st : GenState) (s : SnagItem)
    (h : ∀ it ∈ docItems st, itemFits it) :
    ∀ it ∈ docItems (emitSnag st s), itemFits it := by
  intro it hit
  rw [docItems_emitSnag] at hit
  rcases List.mem_append.mp hit with h1 | h2
  · exact h it h1
  · rw [List.mem_singleton] at h2
    subst h2
    have hph : pageHeight = 297 := rfl
    show (snagBreak st).y ≤ pageHeight - 30 ∧ (snagBreak st).y + 16 ≤ pageHeight
    by_cases hb : pageHeight - 30 < st.y
    · have : (snagBreak st).y = margin := by rw [snagBreak, if_pos hb]; rfl
      rw [this]
      have hm : margin = 15 := rfl
      omega
    · have : (snagBreak st).y = st.y := by rw [snagBreak, if_neg hb]
      rw [this]
      omega

/-- The snag loop keeps every placed item fitting. -/
theorem itemFits_foldl_emitSnag : ∀ (l : List SnagItem) (st : GenState),
    (∀ it ∈ docItems st, itemFits it) →
    ∀ it ∈ docItems (l.foldl emitSnag st), itemFits it := by
  intro l
  induction l with
  | nil => intro st h; exact h
  | cons a t ih =>
    intro st h
    rw [List.foldl_cons]
    exact ih (emitSnag st a) (itemFits_emitSnag st a h)

/-- Emitting one room keeps every placed item fitting. -/
theorem itemFits_emitRoom (st : GenState) (room : Room)
    (h : ∀ it ∈ docItems st, itemFits it) :
    ∀ it ∈ docItems (emitRoom st room), itemFits it := by
  by_cases h0 : room.snags.length = 0
  · rw [emitRoom, if_pos h0]
    exact h
  · rw [emitRoom, if_neg h0]
    intro it hit
    refine itemFits_foldl_emitSnag room.snags
      (pushItem (roomBreak st) (PdfItem.roomHeading (roomBreak st).y room.name) 8) ?_ it hit
    intro jt hjt
    rw [docItems_pushItem, docItems_roomBreak] at hjt
    rcases List.mem_append.mp hjt with h1 | h2
    · exact h jt h1
    · rw [List.mem_singleton] at h2
      subst h2
      trivial

/-- The room loop keeps every placed item fitting. -/
theorem itemFits_foldl_emitRoom : ∀ (rooms : List Room) (st : GenState),
    (∀ it ∈ docItems st, itemFits it) →
    ∀ it ∈ docItems (rooms.foldl emitRoom st), itemFits it := by
  intro rooms
  induction rooms with
  | nil => intro st h; exact h
  | cons a t ih =>
    intro st h
    rw [List.foldl_cons]
    exact ih (emitRoom st a) (itemFits_emitRoom st a h)

/-- Every item of any generated document fits its page. -/
theorem generateDocument_itemFits (r : SnaggingReport) :
    ∀ it ∈ (generateDocument r).flatten, itemFits it := by
  rw [generateDocument_flatten]
  apply itemFits_foldl_emitRoom
  intro it hit
  simp [docItems] at hit

/-- C2: no snag entry is ever split across a page boundary — every
placed entry sits at a cursor `y` that passed the `pageHeight - 30`
guard (a new page was started first otherwise), so the marker and both
text lines (16 units of vertical advance) fit on the current page. -/
theorem snagEntry_never_split (r : SnaggingReport) (page : List PdfItem)
    (hp : page ∈ generateDocument r) (y : Nat) (c : RGB) (s t : String)
    (hi : PdfItem.snagLine y c s t ∈ page) :
    y ≤ pageHeight - 30 ∧ y + 16 ≤ pageHeight := by
  have hmem : PdfItem.snagLine y c s t ∈ (generateDocument r).flatten :=
    List.mem_flatten.mpr ⟨page, hp, hi⟩
  exact generateDocument_itemFits r _ hmem

/-- C2 witness: the single entry of the example document sits at cursor
186, well above both bounds. -/
theorem snagEntry_never_split_witness :
    (186 : Nat) ≤ pageHeight - 30 ∧ (186 : Nat) + 16 ≤ pageHeight :=
  snagEntry_never_split exReport
    [PdfItem.roomHeading 178 "Kitchen",
     PdfItem.snagLine 186 ⟨220, 38, 38⟩ "Under sink: Leak"
       "Priority: CRITICAL | Status: OPEN"]
    (by decide) 186 ⟨220, 38, 38⟩ "Under sink: Leak" "Priority: CRITICAL | Status: OPEN"
    (by decide)

end Snagging
